import Mathlib

/-
Verification of the AgentBot Ping SSO onboarding core against its
specification.  The Python sources under app/ are shallowly embedded:
pure functions become Lean functions, in-place mutation becomes explicit
state passing, a raised-and-uncaught Python exception becomes an
Option/Except error value, and datetimes become integers.
-/

namespace AgentBot

/-- Environment kind, from app/models.py (EnvName). -/
inductive EnvName
  | dev
  | staging
  | prod
deriving DecidableEq, Repr, Fintype

/-- Environment state, from app/models.py (EnvState). -/
inductive EnvState
  | not_started
  | forms_raised
  | creds_issued
  | access_provisioned
  | validated
  | signoff_sent
  | approved
  | complete
  | blocked
  | changes_requested
  | abandoned
deriving DecidableEq, Repr, Fintype

/-- The valid state progression order, from app/state_machine.py
(StateMachine.STATE_ORDER). -/
def STATE_ORDER : List EnvState :=
  [EnvState.not_started, EnvState.forms_raised, EnvState.creds_issued,
   EnvState.access_provisioned, EnvState.validated, EnvState.signoff_sent,
   EnvState.approved, EnvState.complete]

/-- Special states that can be entered from any state, from
app/state_machine.py (StateMachine.SPECIAL_STATES). -/
def SPECIAL_STATES : List EnvState :=
  [EnvState.blocked, EnvState.changes_requested, EnvState.abandoned]

/-- Python list.index restricted to STATE_ORDER: some index when the state
occurs in the list, none when list.index would raise ValueError. -/
def indexOfState (s : EnvState) : Option Nat :=
  STATE_ORDER.findIdx? (fun t => t == s)

/-- StateMachine.can_transition from app/state_machine.py.  The result is
none exactly when the Python raises an uncaught ValueError: in the
changes_requested branch, STATE_ORDER.index(current) is evaluated outside
the try/except and changes_requested is not in STATE_ORDER.  In the normal
branch the ValueError from either index call is caught and False is
returned. -/
def can_transition (current target : EnvState) : Option Bool :=
  if target ∈ SPECIAL_STATES then
    some true
  else if current = EnvState.changes_requested then
    match indexOfState current with
    | none => none
    | some i => some ((STATE_ORDER.take i).contains target)
  else
    some (match indexOfState current, indexOfState target with
          | some current_idx, some target_idx => target_idx == current_idx + 1
          | _, _ => false)

/-- Ticket reference, from app/models.py (TicketRef); url and created_at are
omitted (no embedded operation reads them). -/
structure TicketRef where
  system : String
  id : String
  kind : String
  status : String := "open"
deriving DecidableEq, Repr

/-- Secret reference, from app/models.py (SecretRef). -/
structure SecretRef where
  name : String
  mask : String
deriving DecidableEq, Repr

/-- Screenshot reference, from app/models.py (ScreenshotRef). -/
structure ScreenshotRef where
  key : String
  label : String
deriving DecidableEq, Repr

/-- Evidence bundle, from app/models.py (Evidence). -/
structure Evidence where
  tickets : List TicketRef := []
  secret : Option SecretRef := none
  screenshots : List ScreenshotRef := []
  emails : List String := []
  notes : List String := []
deriving DecidableEq, Repr

/-- People set, from app/models.py (PeopleSet); contacts omitted. -/
structure PeopleSet where
  lanids : List String := []
  approvers : List String := []
deriving DecidableEq, Repr

/-- Environment record, from app/models.py (Environment); redirect_uris is
omitted (no embedded operation reads it); timestamps are integers. -/
structure Environment where
  name : EnvName
  state : EnvState := EnvState.not_started
  evidence : Evidence := {}
  people : PeopleSet := {}
  last_updated : Int := 0
deriving DecidableEq, Repr

/-- Client thread, from app/models.py (ClientThread); the environments dict
is an association list keyed by EnvName; metadata is omitted. -/
structure ClientThread where
  thread_id : String
  display_name : String
  environments : List (EnvName × Environment)
  owner : String
  created_by : String
  created_at : Int := 0
  last_update : Int := 0
  blockers : List String := []
  next_actions : List String := []
deriving DecidableEq, Repr

/-- A fresh Environment with all pydantic defaults, as built by
ClientThread constructor in app/models.py. -/
def defaultEnvironment (n : EnvName) (now : Int) : Environment :=
  { name := n, state := EnvState.not_started, evidence := {}, people := {},
    last_updated := now }

/-- ClientThread construction, from app/models.py (ClientThread.init): after
the pydantic field assignment, the dev/staging/prod environments are filled
in only when the supplied environments map is empty. -/
def ClientThread.init (thread_id display_name owner created_by : String)
    (environments : List (EnvName × Environment)) (now : Int) : ClientThread :=
  { thread_id := thread_id, display_name := display_name,
    environments :=
      if environments.isEmpty then
        [(EnvName.dev, defaultEnvironment EnvName.dev now),
         (EnvName.staging, defaultEnvironment EnvName.staging now),
         (EnvName.prod, defaultEnvironment EnvName.prod now)]
      else environments,
    owner := owner, created_by := created_by,
    created_at := now, last_update := now }

/-- Dict lookup thread.environments.get(env) from the Python sources. -/
def lookupEnv (t : ClientThread) (n : EnvName) : Option Environment :=
  (t.environments.find? (fun p => p.1 == n)).map Prod.snd

/-- String rendering of an EnvName, matching the Python enum values used in
error messages. -/
def envNameStr : EnvName → String
  | EnvName.dev => "dev"
  | EnvName.staging => "staging"
  | EnvName.prod => "prod"

/-- String rendering of an EnvState, matching the Python enum values. -/
def envStateStr : EnvState → String
  | EnvState.not_started => "NotStarted"
  | EnvState.forms_raised => "FormsRaised"
  | EnvState.creds_issued => "CredsIssued"
  | EnvState.access_provisioned => "AccessProvisioned"
  | EnvState.validated => "Validated"
  | EnvState.signoff_sent => "SignoffSent"
  | EnvState.approved => "Approved"
  | EnvState.complete => "Complete"
  | EnvState.blocked => "Blocked"
  | EnvState.changes_requested => "ChangesRequested"
  | EnvState.abandoned => "Abandoned"

/-- The per-target evidence checks of StateMachine.validate_transition
(the elif chain after the structural check).  Returns none exactly when the
Python raises: in the complete branch, thread.environments[prev_env] raises
KeyError when the previous environment is missing from the map. -/
def evidenceErrors (target : EnvState) (env : EnvName) (evidence : Evidence)
    (thread : Option ClientThread) : Option (List String) :=
  if target = EnvState.forms_raised then
    some (if evidence.tickets.isEmpty then
            ["FormsRaised requires at least one ticket"] else [])
  else if target = EnvState.creds_issued then
    some (if evidence.secret.isNone then
            ["CredsIssued requires client secret evidence"] else [])
  else if target = EnvState.access_provisioned then
    some (if env = EnvName.dev ∨ env = EnvName.staging then
            if (evidence.tickets.filter
                  (fun t => t.kind == "GLAM" || t.kind == "GWAM")).isEmpty then
              [envNameStr env ++ " requires GLAM/GWAM tickets for access provisioning"]
            else []
          else [])
  else if target = EnvState.validated then
    let screenshot_labels := evidence.screenshots.map (fun s => s.label)
    let missing_labels := ["login", "consent", "landing", "token"].filter
      (fun l => !(screenshot_labels.contains l))
    some (if missing_labels.isEmpty then []
          else ["Validation requires screenshots: " ++
                String.intercalate ", " missing_labels])
  else if target = EnvState.signoff_sent then
    some (if evidence.emails.isEmpty then
            ["SignoffSent requires email evidence"] else [])
  else if target = EnvState.approved then
    some (if evidence.emails.isEmpty then
            ["Approved requires approval email evidence"] else [])
  else if target = EnvState.complete then
    if env = EnvName.staging ∨ env = EnvName.prod then
      match thread with
      | none => some []
      | some t =>
        let prev_env := if env = EnvName.staging then EnvName.dev
                        else EnvName.staging
        match lookupEnv t prev_env with
        | none => none
        | some prev =>
          some (if prev.state ≠ EnvState.complete then
                  [envNameStr env ++ " requires " ++ envNameStr prev_env ++
                   " to be complete"]
                else [])
    else some []
  else some []

/-- StateMachine.validate_transition from app/state_machine.py.  Returns
none exactly when the Python raises an uncaught exception (see
can_transition and evidenceErrors); otherwise some (is_valid, errors). -/
def validate_transition (current target : EnvState) (env : EnvName)
    (evidence : Evidence) (thread : Option ClientThread) :
    Option (Bool × List String) :=
  match can_transition current target with
  | none => none
  | some false =>
    some (false, ["Invalid transition: " ++ envStateStr current ++ " → " ++
                  envStateStr target])
  | some true =>
    match evidenceErrors target env evidence thread with
    | none => none
    | some errors => some (errors.isEmpty, errors)

/-- StateMachine.get_next_actions from app/state_machine.py.  The thread
argument is carried as in the source but unread. -/
def get_next_actions (env : Environment) (thread : ClientThread) : List String :=
  match env.state with
  | EnvState.not_started =>
    ["Create NSSR/OAuth ticket",
     "Create GLAM/GWAM tickets (if Dev/Staging)",
     "Generate redirect URIs"]
  | EnvState.forms_raised => ["Wait for credentials to be issued"]
  | EnvState.creds_issued =>
    (if env.name = EnvName.dev ∨ env.name = EnvName.staging then
       ["Create GLAM/GWAM tickets"] else []) ++
    ["Test application sign-in"]
  | EnvState.access_provisioned =>
    ["Capture login screenshot",
     "Capture consent screenshot",
     "Capture landing page screenshot",
     "Capture token/session screenshot"]
  | EnvState.validated =>
    ["Send sign-off email with screenshots and redirect URIs"]
  | EnvState.signoff_sent => ["Wait for approval email"]
  | EnvState.approved =>
    if env.name = EnvName.prod then
      ["Production ready - onboarding complete"]
    else ["Proceed to next environment"]
  | EnvState.blocked => ["Resolve blocker and retry"]
  | EnvState.changes_requested => ["Address requested changes"]
  | _ => []

/-- StateMachine.get_blockers from app/state_machine.py.  The thread
argument is carried as in the source but unread. -/
def get_blockers (env : Environment) (thread : ClientThread) : List String :=
  match env.state with
  | EnvState.blocked =>
    ["Environment is blocked - manual intervention required"]
  | EnvState.changes_requested =>
    ["Changes requested - address feedback before proceeding"]
  | EnvState.forms_raised =>
    (env.evidence.tickets.filter (fun t => t.status == "open")).map
      (fun t => "Ticket " ++ t.id ++ " (" ++ t.kind ++ ") is still open")
  | EnvState.signoff_sent =>
    if env.evidence.emails.isEmpty then ["Waiting for sign-off approval"]
    else []
  | _ => []

/-- One step of the accumulation loop in StateMachine.calculate_progress:
complete scores the full STATE_ORDER length, a state in STATE_ORDER scores
its index plus one, anything else adds nothing. -/
def progressAccum (acc : Nat) (e : Environment) : Nat :=
  if e.state = EnvState.complete then acc + STATE_ORDER.length
  else match indexOfState e.state with
       | some i => acc + i + 1
       | none => acc

/-- StateMachine.calculate_progress from app/state_machine.py.  The Python
float arithmetic is exact here (small integer numerators over 24), so the
result is modelled in ℚ. -/
def calculate_progress (t : ClientThread) : ℚ :=
  let total_states := STATE_ORDER.length
  let completed_states := t.environments.foldl (fun acc p => progressAccum acc p.2) 0
  let max_possible := total_states * t.environments.length
  if max_possible > 0 then
    min ((completed_states : ℚ) / (max_possible : ℚ)) 1
  else 0

/-- Audit-log entry appended by update_env_state in app/tools.py, with the
details dict of the state_transition action given typed fields. -/
structure StateTransitionAudit where
  thread_id : String
  actor : String
  action : String
  environment : EnvName
  from_state : EnvState
  to_state : EnvState
  reason : String
  evidence_count : Nat
deriving DecidableEq, Repr

/-- The ValueError raises of update_env_state in app/tools.py, plus the
exceptions that propagate out of StateMachine.validate_transition. -/
inductive ToolError
  | envNotFound (env : EnvName) (thread_id : String)
  | invalidStateTransition (errors : List String)
  | uncaughtLookupError
deriving DecidableEq, Repr

/-- update_env_state from app/tools.py.  The repository fetch is modelled by
the caller supplying the already-loaded thread; persistence is modelled by
returning the updated thread together with the single audit entry appended.
Note the source mutates env_obj.state in place before building the audit
details, so from_state there reads the already-updated state. -/
def update_env_state (user : String) (thread : ClientThread) (env : EnvName)
    (new_state : EnvState) (evidence : Evidence) (reason : String) (now : Int) :
    Except ToolError (ClientThread × StateTransitionAudit) :=
  match lookupEnv thread env with
  | none => Except.error (ToolError.envNotFound env thread.thread_id)
  | some env_obj =>
    match validate_transition env_obj.state new_state env evidence (some thread) with
    | none => Except.error ToolError.uncaughtLookupError
    | some (false, errors) =>
      Except.error (ToolError.invalidStateTransition errors)
    | some (true, _) =>
      let env_obj2 : Environment :=
        { env_obj with state := new_state, evidence := evidence,
                       last_updated := now }
      let thread2 : ClientThread :=
        { thread with
            environments := thread.environments.map
              (fun p => if p.1 == env then (p.1, env_obj2) else p),
            last_update := now, blockers := [], next_actions := [] }
      let thread3 : ClientThread :=
        { thread2 with
            blockers := thread2.environments.foldl
              (fun acc p => acc ++ get_blockers p.2 thread2) [],
            next_actions := thread2.environments.foldl
              (fun acc p => acc ++ get_next_actions p.2 thread2) [] }
      let audit : StateTransitionAudit :=
        { thread_id := thread.thread_id, actor := user,
          action := "state_transition", environment := env,
          from_state := env_obj2.state, to_state := new_state,
          reason := reason,
          evidence_count := evidence.tickets.length +
            evidence.screenshots.length + evidence.emails.length }
      Except.ok (thread3, audit)

/-- create_client_thread from app/tools.py: builds a ClientThread (the
uuid-generated thread id is supplied by the caller here), then sets the dev
LANIDs when a non-empty list was given. -/
def create_client_thread (user display_name owner : String)
    (lanids : List String) (thread_id : String) (now : Int) : ClientThread :=
  let thread := ClientThread.init thread_id display_name owner user [] now
  if lanids.isEmpty then thread
  else
    { thread with
        environments := thread.environments.map
          (fun p =>
            if p.1 == EnvName.dev then
              (p.1, { p.2 with people := { p.2.people with lanids := lanids } })
            else p) }

/-- Approval status enum from app/hitl.py (ApprovalStatus). -/
inductive ApprovalStatus
  | pending
  | approved
  | rejected
  | expired
deriving DecidableEq, Repr, Fintype

/-- Approval request record from app/hitl.py (ApprovalRequest); fields not
read or written by the embedded operations (environment, approval type,
title, description, approvers, evidence, created_at) are omitted. -/
structure ApprovalRequest where
  id : String
  thread_id : String
  status : ApprovalStatus := ApprovalStatus.pending
  expires_at : Option Int := none
  approved_by : Option String := none
  approved_at : Option Int := none
  rejection_reason : Option String := none
deriving DecidableEq, Repr

/-- The pending_approvals dict of HITLManager, keyed by the id field of each
record; dict lookup by id. -/
def findApproval (m : List ApprovalRequest) (aid : String) :
    Option ApprovalRequest :=
  m.find? (fun a => a.id == aid)

/-- In-place mutation of the record with the given id, as seen through the
pending_approvals dict. -/
def setApproval (m : List ApprovalRequest) (aid : String)
    (f : ApprovalRequest → ApprovalRequest) : List ApprovalRequest :=
  m.map (fun a => if a.id == aid then f a else a)

/-- The Python condition approval.expires_at and now > approval.expires_at. -/
def is_past_expiry (a : ApprovalRequest) (now : Int) : Bool :=
  match a.expires_at with
  | some t => now > t
  | none => false

/-- HITLManager.approve_request from app/hitl.py, with the current time
passed explicitly; returns the bool result and the map after the call. -/
def approve_request (m : List ApprovalRequest) (aid approver : String)
    (now : Int) : Bool × List ApprovalRequest :=
  match findApproval m aid with
  | none => (false, m)
  | some a =>
    if a.status ≠ ApprovalStatus.pending then (false, m)
    else if is_past_expiry a now then
      (false, setApproval m aid (fun b => { b with status := ApprovalStatus.expired }))
    else
      (true, setApproval m aid (fun b =>
        { b with status := ApprovalStatus.approved,
                 approved_by := some approver, approved_at := some now }))

/-- HITLManager.reject_request from app/hitl.py; note the source has no
expiry check in this operation. -/
def reject_request (m : List ApprovalRequest) (aid approver reason : String)
    (now : Int) : Bool × List ApprovalRequest :=
  match findApproval m aid with
  | none => (false, m)
  | some a =>
    if a.status ≠ ApprovalStatus.pending then (false, m)
    else
      (true, setApproval m aid (fun b =>
        { b with status := ApprovalStatus.rejected,
                 approved_by := some approver, approved_at := some now,
                 rejection_reason := some reason }))

/-- The Python truthiness filter on thread_id in get_pending_approvals. -/
def matchesThread (a : ApprovalRequest) (tid : Option String) : Bool :=
  match tid with
  | none => true
  | some t => a.thread_id == t

/-- The per-record read-time mutation performed by
HITLManager.get_pending_approvals: every record that passed the thread
filter and is past its expiry gets status set to expired, regardless of the
status it had. -/
def listPendingStep (tid : Option String) (now : Int)
    (a : ApprovalRequest) : ApprovalRequest :=
  if matchesThread a tid && is_past_expiry a now then
    { a with status := ApprovalStatus.expired }
  else a

/-- HITLManager.get_pending_approvals from app/hitl.py: returns the list of
still-pending matching records and the map after its read-time mutation. -/
def get_pending_approvals (m : List ApprovalRequest) (tid : Option String)
    (now : Int) : List ApprovalRequest × List ApprovalRequest :=
  let m2 := m.map (listPendingStep tid now)
  (m2.filter (fun a => matchesThread a tid && a.status == ApprovalStatus.pending),
   m2)

/-- The per-record mutation performed by
HITLManager.check_expired_approvals: only pending records past their expiry
are flipped to expired. -/
def sweepStep (now : Int) (a : ApprovalRequest) : ApprovalRequest :=
  if a.status == ApprovalStatus.pending && is_past_expiry a now then
    { a with status := ApprovalStatus.expired }
  else a

/-- HITLManager.check_expired_approvals from app/hitl.py: returns the list
of records expired by this call (with their updated status) and the map
after the call. -/
def check_expired_approvals (m : List ApprovalRequest) (now : Int) :
    List ApprovalRequest × List ApprovalRequest :=
  ((m.filter (fun a => a.status == ApprovalStatus.pending && is_past_expiry a now)).map
     (fun a => { a with status := ApprovalStatus.expired }),
   m.map (sweepStep now))

example : can_transition EnvState.not_started EnvState.forms_raised = some true := by decide
example : can_transition EnvState.not_started EnvState.creds_issued = some false := by decide
example : can_transition EnvState.changes_requested EnvState.not_started = none := by decide
example : can_transition EnvState.changes_requested EnvState.blocked = some true := by decide
example : can_transition EnvState.blocked EnvState.not_started = some false := by decide
example : validate_transition EnvState.approved EnvState.complete EnvName.staging {} none = some (true, []) := by decide

/-- C2 counterexample: CanTransition is not total.  For
current = ChangesRequested and the ordered-progression target NotStarted,
STATE_ORDER.index(ChangesRequested) is evaluated outside the try/except
and raises ValueError, modelled as the none result. -/
theorem can_transition_changes_requested_raises_cex :
    can_transition EnvState.changes_requested EnvState.not_started = none ∧
    EnvState.not_started ∈ STATE_ORDER := by decide

/-- C2 amended: can_transition returns a boolean for every pair of states
except when current is ChangesRequested and the target is in the ordered
progression, where the lookup of ChangesRequested in STATE_ORDER raises an
uncaught ValueError; from ChangesRequested exactly the special-state
targets return true. -/
theorem can_transition_totality_amended :
    (∀ current target : EnvState,
      (can_transition current target).isSome = true ↔
        ¬(current = EnvState.changes_requested ∧ target ∈ STATE_ORDER)) ∧
    (∀ target : EnvState,
      can_transition EnvState.changes_requested target = some true ↔
        target ∈ SPECIAL_STATES) := by decide

/-- C3: for every current state other than ChangesRequested,
can_transition returns (without raising) true exactly when the target is a
special state or both states sit in the ordered progression with the
target index one past the current index; consequently every single-step
advance along STATE_ORDER is accepted while skipping a state or
re-entering the same state is refused. -/
theorem can_transition_ordered_semantics :
    (∀ current target : EnvState, current ≠ EnvState.changes_requested →
      can_transition current target =
        some (decide (target ∈ SPECIAL_STATES ∨
          ∃ ci, ci < STATE_ORDER.length ∧
            indexOfState current = some ci ∧
            indexOfState target = some (ci + 1)))) ∧
    (∀ S T : EnvState, ∀ ci, ci < STATE_ORDER.length →
      indexOfState S = some ci → indexOfState T = some (ci + 1) →
      can_transition S T = some true) ∧
    (∀ S T : EnvState, ∀ ci, ci < STATE_ORDER.length →
      indexOfState S = some ci → indexOfState T = some (ci + 2) →
      can_transition S T = some false) ∧
    (∀ S : EnvState, S ∈ STATE_ORDER → can_transition S S = some false) := by
  refine ⟨?_, ?_, ?_, ?_⟩ <;> decide

/-- Witness for C3 at current = Approved, target = Complete. -/
theorem can_transition_ordered_semantics_witness :
    can_transition EnvState.approved EnvState.complete =
      some (decide (EnvState.complete ∈ SPECIAL_STATES ∨
        ∃ ci, ci < STATE_ORDER.length ∧
          indexOfState EnvState.approved = some ci ∧
          indexOfState EnvState.complete = some (ci + 1))) :=
  can_transition_ordered_semantics.1 EnvState.approved EnvState.complete
    (by decide)

/-- C10: with no thread supplied, the cross-environment prerequisite for
entering Complete is skipped: the staging and prod transitions
Approved → Complete validate with an empty error list for every evidence
bundle, although the previous environment was never checked. -/
theorem validate_transition_none_thread_skips_gate :
    (∀ evidence : Evidence,
      validate_transition EnvState.approved EnvState.complete EnvName.staging
        evidence none = some (true, [])) ∧
    (∀ evidence : Evidence,
      validate_transition EnvState.approved EnvState.complete EnvName.prod
        evidence none = some (true, [])) := by
  constructor <;> intro evidence <;> rfl

/-- An approval already approved whose expiry deadline has passed by the
time of the call. -/
def approvedPastExpiry : ApprovalRequest :=
  { id := "approval-1", thread_id := "t1",
    status := ApprovalStatus.approved, expires_at := some 0 }

/-- C1 counterexample: get_pending_approvals re-marks a request that is
already in the terminal status approved as expired once its deadline has
passed, so a terminal status is mutated again. -/
theorem get_pending_approvals_mutates_terminal_cex :
    approvedPastExpiry.status = ApprovalStatus.approved ∧
    (get_pending_approvals [approvedPastExpiry] none 1).2 =
      [{ approvedPastExpiry with status := ApprovalStatus.expired }] ∧
    ApprovalStatus.expired ≠ ApprovalStatus.approved := by
  exact ⟨rfl, rfl, by decide⟩

/-- C1 amended: once a request is non-pending, approve_request and
reject_request return false with the map untouched and
check_expired_approvals leaves the request unchanged; get_pending_approvals
however leaves a non-pending request unchanged only while its deadline has
not passed (or it misses the thread filter) — a terminal request past its
expires-at is re-marked expired by that read. -/
theorem hitl_terminal_no_further_mutation
    (m : List ApprovalRequest) (aid approver reason : String)
    (tid : Option String) (now : Int) (a : ApprovalRequest)
    (ha : findApproval m aid = some a)
    (hs : a.status ≠ ApprovalStatus.pending) :
    approve_request m aid approver now = (false, m) ∧
    reject_request m aid approver reason now = (false, m) ∧
    List.Forall₂
      (fun orig upd => orig.status ≠ ApprovalStatus.pending → upd = orig)
      m (check_expired_approvals m now).2 ∧
    List.Forall₂
      (fun orig upd => orig.status ≠ ApprovalStatus.pending →
        (matchesThread orig tid = false ∨ is_past_expiry orig now = false →
          upd = orig) ∧
        (matchesThread orig tid = true ∧ is_past_expiry orig now = true →
          upd.status = ApprovalStatus.expired))
      m (get_pending_approvals m tid now).2 := by
  refine ⟨?_, ?_, ?_, ?_⟩
  · unfold approve_request
    rw [ha]
    simp [hs]
  · unfold reject_request
    rw [ha]
    simp [hs]
  · unfold check_expired_approvals
    rw [List.forall₂_map_right_iff]
    rw [List.forall₂_same]
    intro x _ hx
    unfold sweepStep
    simp [beq_iff_eq, hx]
  · unfold get_pending_approvals
    rw [List.forall₂_map_right_iff]
    rw [List.forall₂_same]
    intro x _ _
    unfold listPendingStep
    constructor
    · rintro (hm | he)
      · simp [hm]
      · simp [he]
    · rintro ⟨hm, he⟩
      simp [hm, he]

/-- An approval already rejected, used to instantiate the C1 theorem. -/
def rejectedPastExpiry : ApprovalRequest :=
  { id := "approval-3", thread_id := "t2",
    status := ApprovalStatus.rejected, expires_at := some 0 }

/-- Witness for C1 on a concrete rejected request. -/
theorem hitl_terminal_no_further_mutation_witness :
    approve_request [rejectedPastExpiry] "approval-3" "alice" 1 =
      (false, [rejectedPastExpiry]) :=
  (hitl_terminal_no_further_mutation [rejectedPastExpiry] "approval-3"
    "alice" "why" none 1 rejectedPastExpiry rfl (by decide)).1

/-- A still-pending approval whose expiry deadline has already passed. -/
def pendingPastExpiry : ApprovalRequest :=
  { id := "approval-2", thread_id := "t1",
    status := ApprovalStatus.pending, expires_at := some 0 }

/-- C7 counterexample: reject_request performs no expiry check, unlike
approve_request.  On a pending request past its deadline it returns true
and sets the status to rejected instead of failing and flipping the status
to expired. -/
theorem reject_request_ignores_expiry_cex :
    is_past_expiry pendingPastExpiry 1 = true ∧
    reject_request [pendingPastExpiry] "approval-2" "bob" "changes needed" 1 =
      (true,
       [({ pendingPastExpiry with
            status := ApprovalStatus.rejected,
            approved_by := some "bob",
            approved_at := some 1,
            rejection_reason := some "changes needed" })]) ∧
    ApprovalStatus.rejected ≠ ApprovalStatus.expired := by
  exact ⟨rfl, rfl, by decide⟩

/-- C7 amended: reject_request fails (returns false, no mutation) exactly
when the id is unknown or the request is not pending; it has no expiry
precondition, so a pending request is always rejected, even past its
deadline. -/
theorem reject_request_preconditions
    (m : List ApprovalRequest) (aid approver reason : String) (now : Int) :
    (findApproval m aid = none →
      reject_request m aid approver reason now = (false, m)) ∧
    (∀ a, findApproval m aid = some a → a.status ≠ ApprovalStatus.pending →
      reject_request m aid approver reason now = (false, m)) ∧
    (∀ a, findApproval m aid = some a → a.status = ApprovalStatus.pending →
      reject_request m aid approver reason now =
        (true, setApproval m aid (fun b =>
          { b with status := ApprovalStatus.rejected,
                   approved_by := some approver, approved_at := some now,
                   rejection_reason := some reason }))) := by
  refine ⟨?_, ?_, ?_⟩
  · intro h
    unfold reject_request
    rw [h]
  · intro a h hs
    unfold reject_request
    rw [h]
    simp [hs]
  · intro a h hs
    unfold reject_request
    rw [h]
    simp [hs]

/-- Witness for C7 on a concrete pending request past its deadline. -/
theorem reject_request_preconditions_witness :
    reject_request [pendingPastExpiry] "approval-2" "carol" "redo" 1 =
      (true, setApproval [pendingPastExpiry] "approval-2" (fun b =>
        { b with status := ApprovalStatus.rejected,
                 approved_by := some "carol", approved_at := some 1,
                 rejection_reason := some "redo" })) :=
  (reject_request_preconditions [pendingPastExpiry] "approval-2" "carol"
    "redo" 1).2.2 pendingPastExpiry rfl rfl

/-- A concrete open NSSR ticket reference. -/
def nssrTicket : TicketRef :=
  { system := "ServiceNow", id := "SN-1", kind := "NSSR", status := "open" }

/-- Evidence carrying exactly one ticket. -/
def oneTicketEvidence : Evidence := { tickets := [nssrTicket] }

/-- A freshly created thread: all three environments at NotStarted. -/
def acmeThread : ClientThread :=
  ClientThread.init "t6" "Acme" "own" "creator" [] 0

/-- C4 counterexample: on a failing validation, update_env_state raises a
ValueError (modelled as the error result) rather than returning a
structured success value; at this concrete input the validation reports
invalid and the operation propagates the raise to the caller. -/
theorem update_env_state_raises_on_invalid_cex :
    update_env_state "u" acmeThread EnvName.dev EnvState.validated
      oneTicketEvidence "r" 7 =
      Except.error (ToolError.invalidStateTransition
        ["Invalid transition: NotStarted → Validated"]) ∧
    (validate_transition EnvState.not_started EnvState.validated EnvName.dev
      oneTicketEvidence (some acmeThread)).map Prod.fst = some false := by
  exact ⟨rfl, rfl⟩

/-- C4 amended: whenever validation fails, update_env_state raises a
ValueError carrying the full error list (modelled as the
invalidStateTransition error value); it does not return a structured
result to the caller. -/
theorem update_env_state_error_carries_full_list
    (user : String) (thread : ClientThread) (env : EnvName)
    (new_state : EnvState) (evidence : Evidence) (reason : String)
    (now : Int) (env_obj : Environment) (errors : List String)
    (hlook : lookupEnv thread env = some env_obj)
    (hval : validate_transition env_obj.state new_state env evidence
      (some thread) = some (false, errors)) :
    update_env_state user thread env new_state evidence reason now =
      Except.error (ToolError.invalidStateTransition errors) := by
  unfold update_env_state
  rw [hlook]
  dsimp only
  rw [hval]

/-- Witness for C4 at a concrete invalid transition. -/
theorem update_env_state_error_carries_full_list_witness :
    update_env_state "u" acmeThread EnvName.dev EnvState.signoff_sent
      oneTicketEvidence "r" 7 =
      Except.error (ToolError.invalidStateTransition
        ["Invalid transition: NotStarted → SignoffSent"]) :=
  update_env_state_error_carries_full_list "u" acmeThread EnvName.dev
    EnvState.signoff_sent oneTicketEvidence "r" 7
    (defaultEnvironment EnvName.dev 0)
    ["Invalid transition: NotStarted → SignoffSent"] rfl rfl

/-- C5: update_env_state is atomic on validation failure — the call never
produces a success value, so in this functional embedding no updated
thread is persisted and no audit entry is appended: environment state,
evidence, timestamps, blockers and next-actions all stay as they were. -/
theorem update_env_state_atomic_on_failure
    (user : String) (thread : ClientThread) (env : EnvName)
    (new_state : EnvState) (evidence : Evidence) (reason : String)
    (now : Int) (env_obj : Environment) (errors : List String)
    (hlook : lookupEnv thread env = some env_obj)
    (hval : validate_transition env_obj.state new_state env evidence
      (some thread) = some (false, errors)) :
    (update_env_state user thread env new_state evidence reason now).isOk =
      false := by
  unfold update_env_state
  rw [hlook]
  dsimp only
  rw [hval]
  rfl

/-- Witness for C5 at a concrete invalid transition. -/
theorem update_env_state_atomic_on_failure_witness :
    (update_env_state "u" acmeThread EnvName.dev EnvState.creds_issued
      oneTicketEvidence "r" 7).isOk = false :=
  update_env_state_atomic_on_failure "u" acmeThread EnvName.dev
    EnvState.creds_issued oneTicketEvidence "r" 7
    (defaultEnvironment EnvName.dev 0)
    ["Invalid transition: NotStarted → CredsIssued"] rfl rfl

/-- C6: the audit entry of a successful update_env_state call records the
environment, reason and evidence item count as specified, but its
from-state field equals the new state, not the state the environment had
before the transition: the source mutates env_obj.state in place before
building the audit details.  At this input the environment was NotStarted
before the call, yet the audit entry says from_state = FormsRaised. -/
theorem update_env_state_audit_from_state_bug :
    (lookupEnv acmeThread EnvName.dev).map (fun e => e.state) =
      some EnvState.not_started ∧
    (update_env_state "u" acmeThread EnvName.dev EnvState.forms_raised
      oneTicketEvidence "r" 7).map
      (fun p => (p.2.from_state, p.2.to_state, p.2.environment,
                 p.2.reason, p.2.evidence_count)) =
      Except.ok (EnvState.forms_raised, EnvState.forms_raised, EnvName.dev,
                 "r", 1) ∧
    EnvState.forms_raised ≠ EnvState.not_started := by
  exact ⟨rfl, rfl, by decide⟩

/-- Scoring rule for one environment as worded in the spec for
CalculateProgress: index in the ordered progression plus one, the full
progression length for Complete, and zero for states absent from the
ordered progression. -/
def specEnvScore (s : EnvState) : Nat :=
  if s = EnvState.complete then STATE_ORDER.length
  else match indexOfState s with
       | some i => i + 1
       | none => 0

/-- The loop body of calculate_progress adds exactly the spec score. -/
theorem progressAccum_eq_specEnvScore (acc : Nat) (e : Environment) :
    progressAccum acc e = acc + specEnvScore e.state := by
  rcases e with ⟨n, s, ev, pp, lu⟩
  cases s <;> rfl

/-- Every per-environment score is at most the progression length. -/
theorem specEnvScore_le (s : EnvState) : specEnvScore s ≤ 8 := by
  cases s <;> decide

/-- An environment record carrying only a name and a state. -/
def envWithState (n : EnvName) (s : EnvState) : Environment :=
  { name := n, state := s }

/-- A thread whose three environments are in the given states. -/
def threadWithStates (s1 s2 s3 : EnvState) : ClientThread :=
  ClientThread.init "t" "d" "o" "c"
    [(EnvName.dev, envWithState EnvName.dev s1),
     (EnvName.staging, envWithState EnvName.staging s2),
     (EnvName.prod, envWithState EnvName.prod s3)] 0

/-- C8: for every thread holding its three environments,
calculate_progress is the sum of the three spec scores over 24, it always
lies in the unit interval, and the three sample points of the spec come
out exactly: all Complete gives 1, all NotStarted gives 3/24, and only dev
Complete gives 10/24. -/
theorem calculate_progress_spec_formula
    (t : ClientThread) (e1 e2 e3 : Environment)
    (h : t.environments =
      [(EnvName.dev, e1), (EnvName.staging, e2), (EnvName.prod, e3)]) :
    calculate_progress t =
      ((specEnvScore e1.state : ℚ) + (specEnvScore e2.state : ℚ) +
        (specEnvScore e3.state : ℚ)) / 24 ∧
    0 ≤ calculate_progress t ∧ calculate_progress t ≤ 1 ∧
    calculate_progress
      (threadWithStates EnvState.complete EnvState.complete EnvState.complete) = 1 ∧
    calculate_progress
      (threadWithStates EnvState.not_started EnvState.not_started
        EnvState.not_started) = 3 / 24 ∧
    calculate_progress
      (threadWithStates EnvState.complete EnvState.not_started
        EnvState.not_started) = 10 / 24 := by
  have key : ∀ (u : ClientThread) (f1 f2 f3 : Environment),
      u.environments =
        [(EnvName.dev, f1), (EnvName.staging, f2), (EnvName.prod, f3)] →
      calculate_progress u =
        ((specEnvScore f1.state : ℚ) + (specEnvScore f2.state : ℚ) +
          (specEnvScore f3.state : ℚ)) / 24 := by
    intro u f1 f2 f3 hu
    have hsum : u.environments.foldl (fun acc p => progressAccum acc p.2) 0 =
        specEnvScore f1.state + specEnvScore f2.state + specEnvScore f3.state := by
      rw [hu]
      simp only [List.foldl, progressAccum_eq_specEnvScore]
      omega
    have hlen : u.environments.length = 3 := by rw [hu]; rfl
    have hle : specEnvScore f1.state + specEnvScore f2.state +
        specEnvScore f3.state ≤ 24 := by
      have h1 := specEnvScore_le f1.state
      have h2 := specEnvScore_le f2.state
      have h3 := specEnvScore_le f3.state
      omega
    unfold calculate_progress
    dsimp only
    rw [hsum, hlen]
    have h8 : STATE_ORDER.length = 8 := rfl
    rw [h8]
    rw [if_pos (by norm_num : 8 * 3 > 0)]
    rw [min_eq_left]
    · push_cast
      norm_num
    · rw [div_le_one (by push_cast; norm_num)]
      push_cast
      exact_mod_cast hle
  have hform := key t e1 e2 e3 h
  have hc : specEnvScore EnvState.complete = 8 := rfl
  have hn : specEnvScore EnvState.not_started = 1 := rfl
  refine ⟨hform, ?_, ?_, ?_, ?_, ?_⟩
  · rw [hform]; positivity
  · rw [hform]
    rw [div_le_one (by norm_num)]
    have h1 := specEnvScore_le e1.state
    have h2 := specEnvScore_le e2.state
    have h3 := specEnvScore_le e3.state
    have hle : specEnvScore e1.state + specEnvScore e2.state +
        specEnvScore e3.state ≤ 24 := by omega
    exact_mod_cast hle
  · rw [key _ _ _ _ rfl]
    norm_num [envWithState, hc, hn]
  · rw [key _ _ _ _ rfl]
    norm_num [envWithState, hc, hn]
  · rw [key _ _ _ _ rfl]
    norm_num [envWithState, hc, hn]

/-- Witness for C8 on a concrete thread with dev Validated. -/
theorem calculate_progress_spec_formula_witness :
    calculate_progress
      (threadWithStates EnvState.validated EnvState.not_started
        EnvState.not_started) =
      ((specEnvScore EnvState.validated : ℚ) +
        (specEnvScore EnvState.not_started : ℚ) +
        (specEnvScore EnvState.not_started : ℚ)) / 24 :=
  (calculate_progress_spec_formula
    (threadWithStates EnvState.validated EnvState.not_started
      EnvState.not_started)
    (envWithState EnvName.dev EnvState.validated)
    (envWithState EnvName.staging EnvState.not_started)
    (envWithState EnvName.prod EnvState.not_started) rfl).1

/-- A thread constructed with an explicitly supplied one-entry
environments map. -/
def devOnlyThread : ClientThread :=
  ClientThread.init "t9" "Acme" "o" "c"
    [(EnvName.dev, envWithState EnvName.dev EnvState.not_started)] 0

/-- C9 counterexample: when a non-empty environments map is supplied at
construction, the ClientThread constructor keeps it as given, so a thread
can hold fewer than the three environment kinds. -/
theorem client_thread_incomplete_environments_cex :
    devOnlyThread.environments.length = 1 ∧
    lookupEnv devOnlyThread EnvName.staging = none ∧
    lookupEnv devOnlyThread EnvName.prod = none := by
  exact ⟨rfl, rfl, rfl⟩

/-- Keys of the environments map are untouched by the per-environment
update performed inside update_env_state. -/
theorem map_fst_env_update (l : List (EnvName × Environment)) (env : EnvName)
    (e2 : Environment) :
    (l.map (fun p => if p.1 == env then (p.1, e2) else p)).map Prod.fst =
      l.map Prod.fst := by
  induction l with
  | nil => rfl
  | cons a l ih =>
    simp only [List.map_cons, ih]
    by_cases hc : (a.1 == env) = true
    · rw [if_pos hc]
    · rw [if_neg hc]

/-- C9 amended: a thread built with no (or an empty) environments map —
in particular every thread made by create_client_thread — holds exactly
the three kinds dev, staging, prod, and update_env_state preserves the key
set; but a thread constructed with an explicit non-empty map keeps that
map verbatim, so it can stay only part-filled. -/
theorem client_thread_environments_amended :
    (∀ tid dn ow cb : String, ∀ now : Int,
      (ClientThread.init tid dn ow cb [] now).environments =
        [(EnvName.dev, defaultEnvironment EnvName.dev now),
         (EnvName.staging, defaultEnvironment EnvName.staging now),
         (EnvName.prod, defaultEnvironment EnvName.prod now)]) ∧
    (∀ user dn ow : String, ∀ lanids : List String, ∀ tid : String,
     ∀ now : Int,
      (create_client_thread user dn ow lanids tid now).environments.map
        Prod.fst = [EnvName.dev, EnvName.staging, EnvName.prod]) ∧
    (∀ tid dn ow cb : String, ∀ envs : List (EnvName × Environment),
     ∀ now : Int, envs ≠ [] →
      (ClientThread.init tid dn ow cb envs now).environments = envs) ∧
    (∀ user : String, ∀ thread : ClientThread, ∀ env : EnvName,
     ∀ new_state : EnvState, ∀ evidence : Evidence, ∀ reason : String,
     ∀ now : Int, ∀ t2 : ClientThread, ∀ audit : StateTransitionAudit,
      update_env_state user thread env new_state evidence reason now =
        Except.ok (t2, audit) →
      t2.environments.map Prod.fst = thread.environments.map Prod.fst) := by
  refine ⟨?_, ?_, ?_, ?_⟩
  · intro tid dn ow cb now
    rfl
  · intro user dn ow lanids tid now
    cases lanids with
    | nil => rfl
    | cons a l => rfl
  · intro tid dn ow cb envs now hne
    cases envs with
    | nil => exact absurd rfl hne
    | cons a l => rfl
  · intro user thread env new_state evidence reason now t2 audit h
    unfold update_env_state at h
    cases hl : lookupEnv thread env with
    | none =>
      rw [hl] at h
      exact Except.noConfusion h
    | some env_obj =>
      rw [hl] at h
      dsimp only at h
      cases hv : validate_transition env_obj.state new_state env evidence
          (some thread) with
      | none =>
        rw [hv] at h
        exact Except.noConfusion h
      | some p =>
        rw [hv] at h
        rcases p with ⟨b, errs⟩
        cases b with
        | false => exact Except.noConfusion h
        | true =>
          dsimp only at h
          rw [Except.ok.injEq, Prod.mk.injEq] at h
          obtain ⟨ht, ha⟩ := h
          rw [← ht]
          exact map_fst_env_update thread.environments env _

/-- Witness for C9: a supplied non-empty map is kept verbatim. -/
theorem client_thread_environments_amended_witness :
    (ClientThread.init "t9b" "Acme" "o" "c"
      [(EnvName.dev, envWithState EnvName.dev EnvState.blocked)] 0).environments =
      [(EnvName.dev, envWithState EnvName.dev EnvState.blocked)] :=
  client_thread_environments_amended.2.2.1 "t9b" "Acme" "o" "c"
    [(EnvName.dev, envWithState EnvName.dev EnvState.blocked)] 0
    (List.cons_ne_nil _ _)

end AgentBot
